import Mathlib

/-
Verification of the VSTain template-matching core.

Shallow embedding of the two source modules the claims are about:
  src/vstain/components/image_viewer.py   (geometry transform layer)
  src/vstain/widgets/feature_capture_widget.py
      (feature templates, persistence, matching pipeline, match tick)

Modelling conventions:
  - Python floats are embedded as rationals; literal constants such as
    1e-9, 0.8, 0.05 are taken at their decimal value.
  - Integer pixel coordinates use Int; Python int()/numpy astype(int)
    truncate toward zero, embedded as truncZ below.
  - cv2/numpy collaborators (ORB detectAndCompute, BFMatcher.knnMatch,
    findHomography, screenshot) are pure oracle parameters, matching the
    external-collaborator treatment of the design; images carry only
    their pixel dimensions, the content being abstracted into the
    oracles.
  - zlib+base64 descriptor encoding is an abstract codec pair
    (enc, dec) passed to the serialization functions.
-/

namespace VSTain

/-- The literal 1e-9 used as numeric tolerance in the viewer. -/
def tol9 : ℚ := 1 / 1000000000

/-- QPointF: a 2-d point with float coordinates. -/
structure PointQ where
  x : ℚ
  y : ℚ
deriving DecidableEq

/-- QRectF: a float rectangle given by origin and size. -/
structure RectQ where
  x : ℚ
  y : ℚ
  w : ℚ
  h : ℚ
deriving DecidableEq

/-- QRect: an integer pixel rectangle. -/
structure RectZ where
  x : ℤ
  y : ℤ
  w : ℤ
  h : ℤ
deriving DecidableEq

/-- A loaded QPixmap, reduced to its pixel dimensions. -/
structure Pixmap where
  w : ℚ
  h : ℚ
deriving DecidableEq

/-- The view-relevant state of ImageViewer: loaded pixmap, zoom, pan and
widget (content-rect) size. -/
structure ViewerState where
  pixmap : Option Pixmap
  zoom : ℚ
  pan : PointQ
  widgetW : ℚ
  widgetH : ℚ
deriving DecidableEq

/-- self._min_zoom = 0.05 -/
def min_zoom : ℚ := 1 / 20

/-- self._max_zoom = 40.0 -/
def max_zoom : ℚ := 40

/-- Region: the selected rectangle in display, normalized and image
pixel coordinates. -/
structure Region where
  display : RectQ
  normalized : RectQ
  image : RectZ
deriving DecidableEq

/-- Python int(x) and numpy astype(int): truncation toward zero. -/
def truncZ (q : ℚ) : ℤ := if q < 0 then ⌈q⌉ else ⌊q⌋

/-- ImageViewer._content_rect: the full drawable area. -/
def content_rect (st : ViewerState) : RectQ :=
  ⟨0, 0, st.widgetW, st.widgetH⟩

/-- ImageViewer._fit_rect: image rect in widget coords at zoom=1, pan=0
(aspect fit). -/
def fit_rect (st : ViewerState) : Option RectQ :=
  match st.pixmap with
  | none => none
  | some pm =>
    let cw := max 1 (content_rect st).w
    let ch := max 1 (content_rect st).h
    let iw := pm.w
    let ih := pm.h
    let scale := min (cw / iw) (ch / ih)
    let w := iw * scale
    let h := ih * scale
    some ⟨(cw - w) / 2, (ch - h) / 2, w, h⟩

/-- ImageViewer._scale: effective scale from image pixels to widget
pixels. -/
def view_scale (st : ViewerState) : ℚ :=
  match fit_rect st, st.pixmap with
  | some fr, some pm => fr.w / pm.w * st.zoom
  | _, _ => 1

/-- ImageViewer.display_to_image. -/
def display_to_image (st : ViewerState) (p : PointQ) : Option PointQ :=
  match fit_rect st, st.pixmap with
  | some fr, some _ =>
    let s := view_scale st
    if s ≤ tol9 then none
    else some ⟨(p.x - (fr.x + st.pan.x)) / s, (p.y - (fr.y + st.pan.y)) / s⟩
  | _, _ => none

/-- ImageViewer.image_to_display. -/
def image_to_display (st : ViewerState) (p : PointQ) : Option PointQ :=
  match fit_rect st, st.pixmap with
  | some fr, some _ =>
    let s := view_scale st
    some ⟨fr.x + st.pan.x + p.x * s, fr.y + st.pan.y + p.y * s⟩
  | _, _ => none

/-- ImageViewer.image_to_normalized. -/
def image_to_normalized (st : ViewerState) (p : PointQ) : Option PointQ :=
  match st.pixmap with
  | none => none
  | some pm =>
    if pm.w ≤ 0 ∨ pm.h ≤ 0 then none
    else some ⟨p.x / pm.w, p.y / pm.h⟩

/-- ImageViewer.normalized_to_image. -/
def normalized_to_image (st : ViewerState) (p : PointQ) : Option PointQ :=
  match st.pixmap with
  | none => none
  | some pm => some ⟨p.x * pm.w, p.y * pm.h⟩

/-- ImageViewer._clamp_image_point. -/
def clamp_image_point (st : ViewerState) (p : PointQ) : PointQ :=
  match st.pixmap with
  | none => p
  | some pm => ⟨min (max p.x 0) pm.w, min (max p.y 0) pm.h⟩

/-- C7: imageToDisplay inverts displayToImage wherever the latter
 succeeds, and displayToImage fails exactly when no image is loaded or
 the effective scale is numerically degenerate. -/
theorem display_image_roundtrip (st : ViewerState) (q : PointQ) :
    (display_to_image st q = none ↔ st.pixmap = none ∨ view_scale st ≤ tol9) ∧
    (∀ p, display_to_image st q = some p → image_to_display st p = some q) := by
  constructor
  · cases hpm : st.pixmap with
    | none =>
      simp [display_to_image, fit_rect, hpm]
    | some pm =>
      by_cases hs : view_scale st ≤ tol9 <;>
        simp [display_to_image, fit_rect, hpm, hs]
  · intro p hp
    cases hpm : st.pixmap with
    | none =>
      simp [display_to_image, fit_rect, hpm] at hp
    | some pm =>
      by_cases hs : view_scale st ≤ tol9
      · simp [display_to_image, fit_rect, hpm, hs] at hp
      · simp only [display_to_image, fit_rect, hpm, hs, if_false] at hp
        have hspos : (0 : ℚ) < view_scale st := by
          have : (0 : ℚ) < tol9 := by norm_num [tol9]
          linarith [lt_of_not_le hs]
        have hsne : view_scale st ≠ 0 := ne_of_gt hspos
        rw [Option.some.injEq] at hp
        subst hp
        simp only [image_to_display, fit_rect, hpm]
        cases q with
        | mk qx qy =>
          simp only [Option.some.injEq, PointQ.mk.injEq]
          constructor <;> · field_simp; ring

/-- A concrete viewer state for witnesses: 100x100 image in a 200x200
widget, zoom 1, pan 0 (fit rect is the whole widget, scale 2). -/
def stA : ViewerState := ⟨some ⟨100, 100⟩, 1, ⟨0, 0⟩, 200, 200⟩

/-- Witness for C7 at a concrete state and point. -/
theorem display_image_roundtrip_witness :
    image_to_display stA ⟨5, 5⟩ = some ⟨10, 10⟩ :=
  (display_image_roundtrip stA ⟨10, 10⟩).2 ⟨5, 5⟩
    (by norm_num [display_to_image, fit_rect, view_scale, content_rect,
      stA, tol9])

/-- Clamping of a requested zoom into the legal range, as done on entry
to ImageViewer._apply_zoom. -/
def clamp_zoom (z : ℚ) : ℚ := max min_zoom (min max_zoom z)

/-- ImageViewer._apply_zoom: anchor-preserving zoom. -/
def apply_zoom (st : ViewerState) (new_zoom : ℚ) (anchor : Option PointQ) :
    ViewerState :=
  let nz := clamp_zoom new_zoom
  if |nz - st.zoom| < tol9 then st
  else
    match fit_rect st, st.pixmap with
    | some fr, some _ =>
      let a := anchor.getD ⟨st.widgetW / 2, st.widgetH / 2⟩
      match display_to_image st a with
      | none => { st with zoom := nz }
      | some ib =>
        let st1 := { st with zoom := nz }
        let s := view_scale st1
        { st1 with pan := ⟨a.x - fr.x - ib.x * s, a.y - fr.y - ib.y * s⟩ }
    | _, _ => { st with zoom := nz }

/-- C6: apply_zoom clamps the requested zoom into bounds; requests whose
 clamped value differs from the current zoom by less than 1e-9 leave the
 state unchanged; otherwise the image point under the anchor is
 preserved exactly (the rational model makes the float tolerance
 exact). -/
theorem apply_zoom_spec (st : ViewerState) (pm : Pixmap) (nz : ℚ)
    (a p : PointQ)
    (hpm : st.pixmap = some pm)
    (hzlo : min_zoom ≤ st.zoom) (hzhi : st.zoom ≤ max_zoom)
    (hbefore : display_to_image st a = some p)
    (hafter : tol9 < view_scale { st with zoom := clamp_zoom nz }) :
    (min_zoom ≤ (apply_zoom st nz (some a)).zoom ∧
      (apply_zoom st nz (some a)).zoom ≤ max_zoom) ∧
    (|clamp_zoom nz - st.zoom| < tol9 → apply_zoom st nz (some a) = st) ∧
    (¬ |clamp_zoom nz - st.zoom| < tol9 →
      (apply_zoom st nz (some a)).zoom = clamp_zoom nz ∧
      display_to_image (apply_zoom st nz (some a)) a = some p) := by
  have hclo : min_zoom ≤ clamp_zoom nz := le_max_left _ _
  have hchi : clamp_zoom nz ≤ max_zoom := by
    have h1 : min max_zoom nz ≤ max_zoom := min_le_left _ _
    have h2 : min_zoom ≤ max_zoom := by norm_num [min_zoom, max_zoom]
    exact max_le h2 h1
  obtain ⟨pix, z, pan0, W, H⟩ := st
  obtain rfl : pix = some pm := hpm
  set sc : ℚ := min (max 1 W / pm.w) (max 1 H / pm.h) with hsc
  have hfit : ∀ z2 pan2, fit_rect ⟨some pm, z2, pan2, W, H⟩ =
      some ⟨(max 1 W - pm.w * sc) / 2, (max 1 H - pm.h * sc) / 2,
            pm.w * sc, pm.h * sc⟩ := fun z2 pan2 => rfl
  have hscale : ∀ z2 pan2, view_scale ⟨some pm, z2, pan2, W, H⟩ =
      pm.w * sc / pm.w * z2 := fun z2 pan2 => rfl
  by_cases hsmall : |clamp_zoom nz - z| < tol9
  · have happ : apply_zoom ⟨some pm, z, pan0, W, H⟩ nz (some a) =
        ⟨some pm, z, pan0, W, H⟩ := by
      unfold apply_zoom
      rw [if_pos hsmall]
    refine ⟨?_, fun _ => happ, fun hc => absurd hsmall hc⟩
    rw [happ]
    exact ⟨hzlo, hzhi⟩
  · have hafter2 : tol9 < pm.w * sc / pm.w * clamp_zoom nz := by
      rw [hscale] at hafter
      exact hafter
    have hs2pos : (0 : ℚ) < pm.w * sc / pm.w * clamp_zoom nz := by
      have h0tol : (0 : ℚ) < tol9 := by norm_num [tol9]
      linarith
    have hs2ne : pm.w * sc / pm.w * clamp_zoom nz ≠ 0 := ne_of_gt hs2pos
    have happ : apply_zoom ⟨some pm, z, pan0, W, H⟩ nz (some a) =
        ⟨some pm, clamp_zoom nz,
         ⟨a.x - (max 1 W - pm.w * sc) / 2 -
            p.x * (pm.w * sc / pm.w * clamp_zoom nz),
          a.y - (max 1 H - pm.h * sc) / 2 -
            p.y * (pm.w * sc / pm.w * clamp_zoom nz)⟩, W, H⟩ := by
      unfold apply_zoom
      rw [if_neg hsmall, hfit]
      dsimp only [Option.getD]
      rw [hbefore]
      dsimp only
      rw [hscale]
    refine ⟨?_, fun hc => absurd hc hsmall, fun _ => ⟨?_, ?_⟩⟩
    · rw [happ]
      exact ⟨hclo, hchi⟩
    · rw [happ]
    · rw [happ]
      unfold display_to_image
      rw [hfit, hscale]
      dsimp only
      rw [if_neg (not_le_of_gt hafter2)]
      cases p with
      | mk px py =>
        simp only [Option.some.injEq, PointQ.mk.injEq]
        set s2 : ℚ := pm.w * sc / pm.w * clamp_zoom nz with hs2def
        constructor <;> · field_simp; ring

/-- Witness for C6: concrete zoom change from 1 to 2 around anchor
 (10, 10); the image point (5, 5) stays under the anchor. -/
theorem apply_zoom_spec_witness :
    display_to_image (apply_zoom stA 2 (some ⟨10, 10⟩)) ⟨10, 10⟩ =
      some ⟨5, 5⟩ :=
  ((apply_zoom_spec stA ⟨100, 100⟩ 2 ⟨10, 10⟩ ⟨5, 5⟩ rfl
      (by norm_num [stA, min_zoom]) (by norm_num [stA, max_zoom])
      (by norm_num [display_to_image, fit_rect, view_scale, content_rect,
        stA, tol9])
      (by norm_num [view_scale, fit_rect, content_rect, stA, tol9,
        clamp_zoom, min_zoom, max_zoom])).2.2
    (by norm_num [clamp_zoom, min_zoom, max_zoom, stA, tol9])).2

/-- ImageViewer._build_region_from_display_rect. -/
def build_region_from_display_rect (st : ViewerState) (dr : RectQ) :
    Option Region :=
  match st.pixmap with
  | none => none
  | some _ =>
    match display_to_image st ⟨dr.x, dr.y⟩,
          display_to_image st ⟨dr.x + dr.w, dr.y + dr.h⟩ with
    | some q1, some q2 =>
      let p1 := clamp_image_point st q1
      let p2 := clamp_image_point st q2
      let x1 := min p1.x p2.x
      let y1 := min p1.y p2.y
      let x2 := max p1.x p2.x
      let y2 := max p1.y p2.y
      if x2 - x1 < 1 ∨ y2 - y1 < 1 then none
      else
        let img : RectZ := ⟨truncZ x1, truncZ y1,
          max 1 (truncZ (x2 - x1)), max 1 (truncZ (y2 - y1))⟩
        match image_to_normalized st ⟨x1, y1⟩,
              image_to_normalized st ⟨x2, y2⟩ with
        | some n1, some n2 =>
          let nx1 := max 0 (min n1.x n2.x)
          let ny1 := max 0 (min n1.y n2.y)
          let nx2 := min 1 (max n1.x n2.x)
          let ny2 := min 1 (max n1.y n2.y)
          some ⟨dr, ⟨nx1, ny1, max 0 (nx2 - nx1), max 0 (ny2 - ny1)⟩, img⟩
        | _, _ => none
    | _, _ => none

/-- The clamped image-space extent of a display rectangle: the
 intermediate (x2 - x1, y2 - y1) in _build_region_from_display_rect,
 just before the emptiness test. -/
def clamped_extent (st : ViewerState) (dr : RectQ) : Option (ℚ × ℚ) :=
  match st.pixmap with
  | none => none
  | some _ =>
    match display_to_image st ⟨dr.x, dr.y⟩,
          display_to_image st ⟨dr.x + dr.w, dr.y + dr.h⟩ with
    | some q1, some q2 =>
      let p1 := clamp_image_point st q1
      let p2 := clamp_image_point st q2
      some (max p1.x p2.x - min p1.x p2.x, max p1.y p2.y - min p1.y p2.y)
    | _, _ => none

/-- truncZ of a nonnegative rational is nonnegative. -/
theorem truncZ_nonneg {q : ℚ} (h : 0 ≤ q) : 0 ≤ truncZ q := by
  rw [truncZ, if_neg (not_lt.mpr h)]
  exact Int.floor_nonneg.mpr h

/-- truncZ of a nonnegative rational is at most the rational. -/
theorem truncZ_le {q : ℚ} (h : 0 ≤ q) : (truncZ q : ℚ) ≤ q := by
  rw [truncZ, if_neg (not_lt.mpr h)]
  exact Int.floor_le q

/-- truncZ of a rational that is at least one is at least one. -/
theorem one_le_truncZ {q : ℚ} (h : 1 ≤ q) : 1 ≤ truncZ q := by
  rw [truncZ, if_neg (not_lt.mpr (le_trans zero_le_one h))]
  exact Int.le_floor.mpr (by exact_mod_cast h)

/-- C8: any Region built from a display rectangle has an integer image
 rectangle with positive width and height lying inside the image
 bounds, and a normalized rectangle inside the unit square; and a
 display rectangle whose clamped image-space extent is narrower than 1
 pixel in either axis yields no Region. -/
theorem build_region_invariants (st : ViewerState) (pm : Pixmap)
    (hpm : st.pixmap = some pm) (hw : 0 < pm.w) (hh : 0 < pm.h) :
    (∀ dr r, build_region_from_display_rect st dr = some r →
      0 ≤ r.image.x ∧ 0 ≤ r.image.y ∧ 1 ≤ r.image.w ∧ 1 ≤ r.image.h ∧
      ((r.image.x : ℚ) + (r.image.w : ℚ) ≤ pm.w) ∧
      ((r.image.y : ℚ) + (r.image.h : ℚ) ≤ pm.h) ∧
      0 ≤ r.normalized.x ∧ 0 ≤ r.normalized.y ∧
      0 ≤ r.normalized.w ∧ 0 ≤ r.normalized.h ∧
      r.normalized.x + r.normalized.w ≤ 1 ∧
      r.normalized.y + r.normalized.h ≤ 1) ∧
    (∀ dr ex ey, clamped_extent st dr = some (ex, ey) →
      ex < 1 ∨ ey < 1 → build_region_from_display_rect st dr = none) := by
  obtain ⟨pix, z, pan0, W, H⟩ := st
  obtain rfl : pix = some pm := hpm
  constructor
  · intro dr r hr
    unfold build_region_from_display_rect at hr
    cases hd1 : display_to_image ⟨some pm, z, pan0, W, H⟩ ⟨dr.x, dr.y⟩ with
    | none => rw [hd1] at hr; simp at hr
    | some q1 =>
    cases hd2 : display_to_image ⟨some pm, z, pan0, W, H⟩
        ⟨dr.x + dr.w, dr.y + dr.h⟩ with
    | none => rw [hd1, hd2] at hr; simp at hr
    | some q2 =>
    rw [hd1, hd2] at hr
    dsimp only [clamp_image_point] at hr
    set a1 : ℚ := min (max q1.x 0) pm.w with ha1
    set b1 : ℚ := min (max q1.y 0) pm.h with hb1
    set a2 : ℚ := min (max q2.x 0) pm.w with ha2
    set b2 : ℚ := min (max q2.y 0) pm.h with hb2
    have h01 : 0 ≤ a1 := le_min (le_max_right _ _) hw.le
    have h02 : 0 ≤ a2 := le_min (le_max_right _ _) hw.le
    have h03 : 0 ≤ b1 := le_min (le_max_right _ _) hh.le
    have h04 : 0 ≤ b2 := le_min (le_max_right _ _) hh.le
    have hw1 : a1 ≤ pm.w := min_le_right _ _
    have hw2 : a2 ≤ pm.w := min_le_right _ _
    have hh1 : b1 ≤ pm.h := min_le_right _ _
    have hh2 : b2 ≤ pm.h := min_le_right _ _
    by_cases hlt : max a1 a2 - min a1 a2 < 1 ∨ max b1 b2 - min b1 b2 < 1
    · rw [if_pos hlt] at hr
      simp at hr
    · rw [if_neg hlt] at hr
      push_neg at hlt
      obtain ⟨hwide, htall⟩ := hlt
      dsimp only [image_to_normalized] at hr
      have hcond : ¬ (pm.w ≤ 0 ∨ pm.h ≤ 0) := by
        simp only [not_or, not_le]; exact ⟨hw, hh⟩
      rw [if_neg hcond] at hr
      rw [if_neg hcond] at hr
      dsimp only at hr
      rw [Option.some.injEq] at hr
      subst hr
      have hx0 : (0 : ℚ) ≤ min a1 a2 := le_min h01 h02
      have hy0 : (0 : ℚ) ≤ min b1 b2 := le_min h03 h04
      have hxw : max a1 a2 ≤ pm.w := max_le hw1 hw2
      have hyh : max b1 b2 ≤ pm.h := max_le hh1 hh2
      have hdx0 : (0 : ℚ) ≤ max a1 a2 - min a1 a2 := by linarith
      have hdy0 : (0 : ℚ) ≤ max b1 b2 - min b1 b2 := by linarith
      have hmw : max 1 (truncZ (max a1 a2 - min a1 a2)) =
          truncZ (max a1 a2 - min a1 a2) :=
        max_eq_right (one_le_truncZ hwide)
      have hmh : max 1 (truncZ (max b1 b2 - min b1 b2)) =
          truncZ (max b1 b2 - min b1 b2) :=
        max_eq_right (one_le_truncZ htall)
      refine ⟨truncZ_nonneg hx0, truncZ_nonneg hy0, le_max_left _ _,
        le_max_left _ _, ?_, ?_, le_max_left _ _, le_max_left _ _,
        le_max_left _ _, le_max_left _ _, ?_, ?_⟩
      · dsimp only
        rw [hmw]
        have t1 := truncZ_le hx0
        have t2 := truncZ_le hdx0
        linarith
      · dsimp only
        rw [hmh]
        have t1 := truncZ_le hy0
        have t2 := truncZ_le hdy0
        linarith
      · dsimp only
        have hn1 : min a1 a2 / pm.w ≤ 1 := by
          rw [div_le_one hw]; linarith [min_le_max (a := a1) (b := a2)]
        have hn2 : max a1 a2 / pm.w ≤ 1 := by
          rw [div_le_one hw]; exact hxw
        rcases le_or_lt (min 1 (max (min a1 a2 / pm.w) (max a1 a2 / pm.w)) -
            max 0 (min (min a1 a2 / pm.w) (max a1 a2 / pm.w))) 0 with hc | hc
        · rw [max_eq_left hc]
          have : min (min a1 a2 / pm.w) (max a1 a2 / pm.w) ≤ 1 :=
            le_trans (min_le_left _ _) hn1
          have := max_le zero_le_one this
          linarith
        · rw [max_eq_right hc.le]
          have : min 1 (max (min a1 a2 / pm.w) (max a1 a2 / pm.w)) ≤ 1 :=
            min_le_left _ _
          linarith
      · dsimp only
        have hn1 : min b1 b2 / pm.h ≤ 1 := by
          rw [div_le_one hh]; linarith [min_le_max (a := b1) (b := b2)]
        have hn2 : max b1 b2 / pm.h ≤ 1 := by
          rw [div_le_one hh]; exact hyh
        rcases le_or_lt (min 1 (max (min b1 b2 / pm.h) (max b1 b2 / pm.h)) -
            max 0 (min (min b1 b2 / pm.h) (max b1 b2 / pm.h))) 0 with hc | hc
        · rw [max_eq_left hc]
          have : min (min b1 b2 / pm.h) (max b1 b2 / pm.h) ≤ 1 :=
            le_trans (min_le_left _ _) hn1
          have := max_le zero_le_one this
          linarith
        · rw [max_eq_right hc.le]
          have : min 1 (max (min b1 b2 / pm.h) (max b1 b2 / pm.h)) ≤ 1 :=
            min_le_left _ _
          linarith
  · intro dr ex ey hce hlt
    unfold clamped_extent at hce
    unfold build_region_from_display_rect
    dsimp only at hce ⊢
    cases hd1 : display_to_image ⟨some pm, z, pan0, W, H⟩ ⟨dr.x, dr.y⟩ with
    | none => rfl
    | some q1 =>
    cases hd2 : display_to_image ⟨some pm, z, pan0, W, H⟩
        ⟨dr.x + dr.w, dr.y + dr.h⟩ with
    | none => rfl
    | some q2 =>
    rw [hd1, hd2] at hce
    dsimp only [clamp_image_point] at hce ⊢
    rw [Option.some.injEq, Prod.mk.injEq] at hce
    obtain ⟨hex, hey⟩ := hce
    rw [if_pos]
    rw [hex, hey]
    exact hlt

/-- Concrete small drag for witnesses on a 1000x1000 image shown in a
 200x200 widget: at this low zoom a 2-pixel-wide drag spans 10 image
 pixels yet is still rejected by the 3-pixel display threshold. -/
def stLow : ViewerState := ⟨some ⟨1000, 1000⟩, 1, ⟨0, 0⟩, 200, 200⟩

/-- A display rectangle used by the C8 witness. -/
def drA : RectQ := ⟨0, 0, 50, 50⟩

/-- The Region produced from drA on stA. -/
def rA : Region := ⟨⟨0, 0, 50, 50⟩, ⟨0, 0, 1/4, 1/4⟩, ⟨0, 0, 25, 25⟩⟩

/-- Witness for C8 at a concrete state and display rectangle. -/
theorem build_region_invariants_witness :
    0 ≤ rA.image.x ∧ 0 ≤ rA.image.y ∧ 1 ≤ rA.image.w ∧ 1 ≤ rA.image.h ∧
      ((rA.image.x : ℚ) + (rA.image.w : ℚ) ≤ 100) ∧
      ((rA.image.y : ℚ) + (rA.image.h : ℚ) ≤ 100) ∧
      0 ≤ rA.normalized.x ∧ 0 ≤ rA.normalized.y ∧
      0 ≤ rA.normalized.w ∧ 0 ≤ rA.normalized.h ∧
      rA.normalized.x + rA.normalized.w ≤ 1 ∧
      rA.normalized.y + rA.normalized.h ≤ 1 :=
  (build_region_invariants stA ⟨100, 100⟩ rfl (by norm_num) (by norm_num)).1
    drA rA
    (by norm_num [build_region_from_display_rect, display_to_image,
      fit_rect, view_scale, content_rect, clamp_image_point,
      image_to_normalized, truncZ, stA, drA, rA, tol9])

/-- The ImageViewer.mouseReleaseEvent SELECT branch: the Region emitted
 (if any) from a drag from sel_start to pos. -/
def mouse_release_select (st : ViewerState) (sel_start pos : PointQ) :
    Option Region :=
  let x1 := min sel_start.x pos.x
  let y1 := min sel_start.y pos.y
  let x2 := max sel_start.x pos.x
  let y2 := max sel_start.y pos.y
  let dr : RectQ := ⟨x1, y1, x2 - x1, y2 - y1⟩
  if 3 ≤ dr.w ∧ 3 ≤ dr.h then build_region_from_display_rect st dr
  else none

/-- C10: a drag whose display rectangle is less than 3 pixels wide or
 tall emits no Region for any view state; drags of at least 3x3 display
 pixels proceed to Region construction. -/
theorem mouse_release_select_spec (st : ViewerState) (s p : PointQ) :
    ((max s.x p.x - min s.x p.x < 3 ∨ max s.y p.y - min s.y p.y < 3) →
      mouse_release_select st s p = none) ∧
    (3 ≤ max s.x p.x - min s.x p.x → 3 ≤ max s.y p.y - min s.y p.y →
      mouse_release_select st s p =
        build_region_from_display_rect st
          ⟨min s.x p.x, min s.y p.y, max s.x p.x - min s.x p.x,
           max s.y p.y - min s.y p.y⟩) := by
  constructor
  · intro h
    unfold mouse_release_select
    rw [if_neg]
    intro hc
    rcases h with h | h
    · exact absurd hc.1 (not_le.mpr h)
    · exact absurd hc.2 (not_le.mpr h)
  · intro h1 h2
    unfold mouse_release_select
    rw [if_pos ⟨h1, h2⟩]

/-- Witness for C10: on the low-zoom state a drag 2 display pixels wide
 (spanning 10 image pixels) emits nothing. -/
theorem mouse_release_select_spec_witness :
    mouse_release_select stLow ⟨0, 0⟩ ⟨2, 50⟩ = none :=
  (mouse_release_select_spec stLow ⟨0, 0⟩ ⟨2, 50⟩).1 (Or.inl (by norm_num))

/-- cv2.KeyPoint, with the fields touched by the source. -/
structure KeyPoint where
  ptx : ℚ
  pty : ℚ
  size : ℚ
  angle : ℚ
  response : ℚ
  octave : ℤ
  class_id : ℤ
deriving DecidableEq

/-- A numpy uint8 matrix: shape plus flat byte data (row-major).
len() of a 2-d array is its number of rows. -/
structure NpMat where
  rows : ℕ
  cols : ℕ
  data : List ℕ
deriving DecidableEq

/-- A scene image, reduced to its pixel dimensions (shape); pixel
content is abstracted into the extractor oracles. -/
structure Image where
  width : ℤ
  height : ℤ
deriving DecidableEq

/-- The FeatureTemplate dataclass. -/
structure FeatureTemplate where
  name : String
  position : RectZ
  confidence_threshold : ℚ
  keypoints : Option (List KeyPoint)
  descriptors : Option NpMat
deriving DecidableEq

/-- A cv2.DMatch as produced by BFMatcher.knnMatch. -/
structure DMatch where
  queryIdx : ℕ
  trainIdx : ℕ
  distance : ℚ
deriving DecidableEq

/-- A 3x3 homography matrix. -/
structure Mat3 where
  m00 : ℚ
  m01 : ℚ
  m02 : ℚ
  m10 : ℚ
  m11 : ℚ
  m12 : ℚ
  m20 : ℚ
  m21 : ℚ
  m22 : ℚ
deriving DecidableEq

/-- The match-result dictionary built by _match_template. -/
structure MatchResult where
  template : String
  position : RectZ
  confidence : ℚ
  good_matches : List DMatch
  kp2 : List KeyPoint
  mask : List Bool
deriving DecidableEq

/-- Default keypoint used for (unreachable) out-of-range indexing. -/
def kp0 : KeyPoint := ⟨0, 0, 0, 0, 0, 0, 0⟩

/-- kp.pt -/
def keypoint_pt (kp : KeyPoint) : ℚ × ℚ := (kp.ptx, kp.pty)

/-- An empty descriptor matrix. -/
def emptyMat : NpMat := ⟨0, 0, []⟩

/-- len() of an optional descriptor matrix; counts None as 0, matching
the combined descriptor gates in the source. -/
def descRows : Option NpMat → ℕ
  | none => 0
  | some d => d.rows

/-- cv2.perspectiveTransform of a single point through a homography. -/
def perspective_point (M : Mat3) (p : ℚ × ℚ) : ℚ × ℚ :=
  let d := M.m20 * p.1 + M.m21 * p.2 + M.m22
  ((M.m00 * p.1 + M.m01 * p.2 + M.m02) / d,
   (M.m10 * p.1 + M.m11 * p.2 + M.m12) / d)

/-- Smallest truncated x coordinate of the template's four projected
corners (the corner order is [0,0], [w,0], [w,h], [0,h]). -/
def proj_x_min (t : FeatureTemplate) (M : Mat3) : ℤ :=
  min (min (truncZ (perspective_point M (0, 0)).1)
           (truncZ (perspective_point M ((t.position.w : ℚ), 0)).1))
      (min (truncZ (perspective_point M
              ((t.position.w : ℚ), (t.position.h : ℚ))).1)
           (truncZ (perspective_point M (0, (t.position.h : ℚ))).1))

/-- Largest truncated x coordinate of the projected corners. -/
def proj_x_max (t : FeatureTemplate) (M : Mat3) : ℤ :=
  max (max (truncZ (perspective_point M (0, 0)).1)
           (truncZ (perspective_point M ((t.position.w : ℚ), 0)).1))
      (max (truncZ (perspective_point M
              ((t.position.w : ℚ), (t.position.h : ℚ))).1)
           (truncZ (perspective_point M (0, (t.position.h : ℚ))).1))

/-- Smallest truncated y coordinate of the projected corners. -/
def proj_y_min (t : FeatureTemplate) (M : Mat3) : ℤ :=
  min (min (truncZ (perspective_point M (0, 0)).2)
           (truncZ (perspective_point M ((t.position.w : ℚ), 0)).2))
      (min (truncZ (perspective_point M
              ((t.position.w : ℚ), (t.position.h : ℚ))).2)
           (truncZ (perspective_point M (0, (t.position.h : ℚ))).2))

/-- Largest truncated y coordinate of the projected corners. -/
def proj_y_max (t : FeatureTemplate) (M : Mat3) : ℤ :=
  max (max (truncZ (perspective_point M (0, 0)).2)
           (truncZ (perspective_point M ((t.position.w : ℚ), 0)).2))
      (max (truncZ (perspective_point M
              ((t.position.w : ℚ), (t.position.h : ℚ))).2)
           (truncZ (perspective_point M (0, (t.position.h : ℚ))).2))

/-- The clipped axis-aligned bounding box of the projected template
corners, exactly as computed at the end of _match_template. -/
def bounding_box (t : FeatureTemplate) (img : Image) (M : Mat3) : RectZ :=
  ⟨max 0 (proj_x_min t M), max 0 (proj_y_min t M),
   min img.width (proj_x_max t M) - max 0 (proj_x_min t M),
   min img.height (proj_y_max t M) - max 0 (proj_y_min t M)⟩

/-- The Lowe ratio-test loop over knnMatch output: keep m from an exact
pair [m, n] when m.distance < 0.8 * n.distance. -/
def ratio_test_survivors (knnms : List (List DMatch)) : List DMatch :=
  knnms.filterMap fun mn =>
    match mn with
    | [m, n] => if m.distance < (0.8 : ℚ) * n.distance then some m else none
    | _ => none

/-- src_pts: template keypoint positions of the surviving matches. -/
def src_points (t : FeatureTemplate) (good : List DMatch) : List (ℚ × ℚ) :=
  good.map fun m => keypoint_pt ((t.keypoints.getD []).getD m.queryIdx kp0)

/-- dst_pts: scene keypoint positions of the surviving matches. -/
def dst_points (kp2 : List KeyPoint) (good : List DMatch) : List (ℚ × ℚ) :=
  good.map fun m => keypoint_pt (kp2.getD m.trainIdx kp0)

/-- _match_template: knn + ratio test + homography. The scene extractor
det, matcher knn, and homography estimator fH are collaborator
oracles. -/
def match_template
    (det : Image → List KeyPoint × Option NpMat)
    (knn : NpMat → NpMat → List (List DMatch))
    (fH : List (ℚ × ℚ) → List (ℚ × ℚ) → Option (Mat3 × List Bool))
    (t : FeatureTemplate) (img : Image) : Option MatchResult :=
  match t.descriptors with
  | none => none
  | some d =>
    if d.rows = 0 then none
    else
      match (det img).2 with
      | none => none
      | some des2 =>
        if des2.rows < 50 then none
        else
          if (ratio_test_survivors (knn d des2)).length < 6 then none
          else
            match fH (src_points t (ratio_test_survivors (knn d des2)))
                (dst_points (det img).1
                  (ratio_test_survivors (knn d des2))) with
            | none => none
            | some (M, mask) =>
              if ((mask.count true : ℕ) : ℚ) /
                  ((ratio_test_survivors (knn d des2)).length : ℚ) <
                  t.confidence_threshold then none
              else
                some ⟨t.name, bounding_box t img M,
                      ((mask.count true : ℕ) : ℚ) /
                        ((ratio_test_survivors (knn d des2)).length : ℚ),
                      ratio_test_survivors (knn d des2), (det img).1, mask⟩

/-- Stage view: number of template descriptors. -/
def template_desc_rows (t : FeatureTemplate) : ℕ := descRows t.descriptors

/-- Stage view: number of scene descriptors the extractor yields. -/
def scene_desc_rows (det : Image → List KeyPoint × Option NpMat)
    (img : Image) : ℕ :=
  descRows (det img).2

/-- Stage view: the scene descriptor matrix. -/
def scene_descs (det : Image → List KeyPoint × Option NpMat)
    (img : Image) : NpMat :=
  ((det img).2).getD emptyMat

/-- Stage view: the ratio-test survivors (candidate matches). -/
def good_matches (det : Image → List KeyPoint × Option NpMat)
    (knn : NpMat → NpMat → List (List DMatch))
    (t : FeatureTemplate) (img : Image) : List DMatch :=
  ratio_test_survivors (knn (t.descriptors.getD emptyMat)
    (scene_descs det img))

/-- Stage view: the homography estimate on the candidates. -/
def est_homography (det : Image → List KeyPoint × Option NpMat)
    (knn : NpMat → NpMat → List (List DMatch))
    (fH : List (ℚ × ℚ) → List (ℚ × ℚ) → Option (Mat3 × List Bool))
    (t : FeatureTemplate) (img : Image) : Option (Mat3 × List Bool) :=
  fH (src_points t (good_matches det knn t img))
     (dst_points (det img).1 (good_matches det knn t img))

/-- Stage view: confidence = inlierCount / candidateCount (0 when no
homography was estimated). -/
def match_confidence (det : Image → List KeyPoint × Option NpMat)
    (knn : NpMat → NpMat → List (List DMatch))
    (fH : List (ℚ × ℚ) → List (ℚ × ℚ) → Option (Mat3 × List Bool))
    (t : FeatureTemplate) (img : Image) : ℚ :=
  match est_homography det knn fH t img with
  | none => 0
  | some (_, mask) =>
    ((mask.count true : ℕ) : ℚ) / ((good_matches det knn t img).length : ℚ)

/-- C1: _match_template returns none exactly when one of the gates
 fails (no template descriptors, fewer than 50 scene descriptors, fewer
 than 6 ratio-test survivors, no homography, confidence below the
 template threshold), and any returned result carries confidence equal
 to inlierCount / candidateCount. -/
theorem match_template_gate_spec
    (det : Image → List KeyPoint × Option NpMat)
    (knn : NpMat → NpMat → List (List DMatch))
    (fH : List (ℚ × ℚ) → List (ℚ × ℚ) → Option (Mat3 × List Bool))
    (t : FeatureTemplate) (img : Image) :
    (match_template det knn fH t img = none ↔
      template_desc_rows t = 0 ∨
      scene_desc_rows det img < 50 ∨
      (good_matches det knn t img).length < 6 ∨
      est_homography det knn fH t img = none ∨
      match_confidence det knn fH t img < t.confidence_threshold) ∧
    (∀ r, match_template det knn fH t img = some r →
      r.confidence = match_confidence det knn fH t img) := by
  cases hd : t.descriptors with
  | none =>
    constructor
    · simp [match_template, template_desc_rows, descRows, hd]
    · intro r hr
      simp [match_template, hd] at hr
  | some d =>
    have htd : template_desc_rows t = d.rows := by
      rw [template_desc_rows, hd]
      rfl
    by_cases h0 : d.rows = 0
    · constructor
      · simp [match_template, hd, h0, htd]
      · intro r hr
        simp [match_template, hd, h0] at hr
    · cases hdes : (det img).2 with
      | none =>
        have hsd : scene_desc_rows det img = 0 := by
          rw [scene_desc_rows, hdes]
          rfl
        constructor
        · simp [match_template, hd, h0, hdes, hsd]
        · intro r hr
          simp [match_template, hd, h0, hdes] at hr
      | some des2 =>
        have hsd : scene_desc_rows det img = des2.rows := by
          rw [scene_desc_rows, hdes]
          rfl
        have hgm : good_matches det knn t img =
            ratio_test_survivors (knn d des2) := by
          rw [good_matches, scene_descs, hd, hdes]
          rfl
        by_cases h50 : des2.rows < 50
        · constructor
          · simp [match_template, hd, h0, hdes, h50, hsd]
          · intro r hr
            simp [match_template, hd, h0, hdes, h50] at hr
        · by_cases h6 : (ratio_test_survivors (knn d des2)).length < 6
          · constructor
            · simp [match_template, hd, h0, hdes, h50, h6, htd, hsd, hgm]
            · intro r hr
              simp [match_template, hd, h0, hdes, h50, h6] at hr
          · have hest : est_homography det knn fH t img =
                fH (src_points t (ratio_test_survivors (knn d des2)))
                   (dst_points (det img).1
                     (ratio_test_survivors (knn d des2))) := by
              rw [est_homography, hgm]
            cases hH : fH (src_points t (ratio_test_survivors (knn d des2)))
                (dst_points (det img).1
                  (ratio_test_survivors (knn d des2))) with
            | none =>
              constructor
              · simp [match_template, hd, h0, hdes, h50, h6, hH, hest]
              · intro r hr
                simp [match_template, hd, h0, hdes, h50, h6, hH] at hr
            | some Hm =>
              obtain ⟨M, mask⟩ := Hm
              have hconf : match_confidence det knn fH t img =
                  ((mask.count true : ℕ) : ℚ) /
                    ((ratio_test_survivors (knn d des2)).length : ℚ) := by
                rw [match_confidence, hest, hH, hgm]
              by_cases hth : ((mask.count true : ℕ) : ℚ) /
                  ((ratio_test_survivors (knn d des2)).length : ℚ) <
                  t.confidence_threshold
              · constructor
                · simp [match_template, hd, h0, hdes, h50, h6, hH, hest,
                    hconf, hth, htd, hsd, hgm]
                · intro r hr
                  simp [match_template, hd, h0, hdes, h50, h6, hH, hth] at hr
              · constructor
                · simp [match_template, hd, h0, hdes, h50, h6, hH, hest,
                    hconf, hth, htd, hsd, hgm]
                · intro r hr
                  simp only [match_template, hd, h0, hdes, h50, h6, hH, hth,
                    if_false, if_neg, Option.some.injEq] at hr
                  rw [hconf, ← hr]
/-- C2 (amended): any returned bounding box is exactly the clipped AABB
 of the projected template corners; its origin is nonnegative and its
 far edge within the scene; its width and height are nonnegative
 whenever the projected AABB intersects the scene extent (they can be
 negative when it does not, see the counterexample); and the confidence
 lies in the unit interval provided the estimator mask has one entry
 per candidate. -/
theorem match_template_bbox_spec
    (det : Image → List KeyPoint × Option NpMat)
    (knn : NpMat → NpMat → List (List DMatch))
    (fH : List (ℚ × ℚ) → List (ℚ × ℚ) → Option (Mat3 × List Bool))
    (t : FeatureTemplate) (img : Image) (r : MatchResult)
    (M : Mat3) (mask : List Bool)
    (hr : match_template det knn fH t img = some r)
    (hest : est_homography det knn fH t img = some (M, mask)) :
    r.position = bounding_box t img M ∧
    0 ≤ r.position.x ∧ 0 ≤ r.position.y ∧
    r.position.x + r.position.w ≤ img.width ∧
    r.position.y + r.position.h ≤ img.height ∧
    (max 0 (proj_x_min t M) ≤ min img.width (proj_x_max t M) →
      0 ≤ r.position.w) ∧
    (max 0 (proj_y_min t M) ≤ min img.height (proj_y_max t M) →
      0 ≤ r.position.h) ∧
    0 ≤ r.confidence ∧
    (mask.length = (good_matches det knn t img).length →
      r.confidence ≤ 1) := by
  cases hd : t.descriptors with
  | none => simp [match_template, hd] at hr
  | some d =>
  by_cases h0 : d.rows = 0
  · simp [match_template, hd, h0] at hr
  · cases hdes : (det img).2 with
    | none => simp [match_template, hd, h0, hdes] at hr
    | some des2 =>
    by_cases h50 : des2.rows < 50
    · simp [match_template, hd, h0, hdes, h50] at hr
    · by_cases h6 : (ratio_test_survivors (knn d des2)).length < 6
      · simp [match_template, hd, h0, hdes, h50, h6] at hr
      · have hgm : good_matches det knn t img =
            ratio_test_survivors (knn d des2) := by
          rw [good_matches, scene_descs, hd, hdes]
          rfl
        have hestx : est_homography det knn fH t img =
            fH (src_points t (ratio_test_survivors (knn d des2)))
               (dst_points (det img).1
                 (ratio_test_survivors (knn d des2))) := by
          rw [est_homography, hgm]
        cases hH : fH (src_points t (ratio_test_survivors (knn d des2)))
            (dst_points (det img).1 (ratio_test_survivors (knn d des2))) with
        | none => simp [match_template, hd, h0, hdes, h50, h6, hH] at hr
        | some Hm =>
        obtain ⟨M2, mask2⟩ := Hm
        have hMm : M2 = M ∧ mask2 = mask := by
          rw [hestx, hH] at hest
          rw [Option.some.injEq, Prod.mk.injEq] at hest
          exact hest
        obtain ⟨rfl, rfl⟩ := hMm
        by_cases hth : ((mask2.count true : ℕ) : ℚ) /
            ((ratio_test_survivors (knn d des2)).length : ℚ) <
            t.confidence_threshold
        · simp [match_template, hd, h0, hdes, h50, h6, hH, hth] at hr
        · simp only [match_template, hd, h0, hdes, h50, h6, hH, hth,
            if_false, if_neg, Option.some.injEq] at hr
          subst hr
          refine ⟨rfl, le_max_left _ _, le_max_left _ _, ?_, ?_, ?_, ?_,
            ?_, ?_⟩
          · dsimp only [bounding_box]
            linarith [min_le_left img.width (proj_x_max t M2)]
          · dsimp only [bounding_box]
            linarith [min_le_left img.height (proj_y_max t M2)]
          · intro hx
            dsimp only [bounding_box]
            linarith [hx]
          · intro hy
            dsimp only [bounding_box]
            linarith [hy]
          · exact div_nonneg (Nat.cast_nonneg _) (Nat.cast_nonneg _)
          · intro hlen
            have hlen6 : 6 ≤ (ratio_test_survivors (knn d des2)).length :=
              not_lt.mp h6
            have hpos : (0 : ℚ) <
                ((ratio_test_survivors (knn d des2)).length : ℚ) := by
              exact_mod_cast lt_of_lt_of_le (by norm_num) hlen6
            dsimp only
            rw [div_le_one hpos]
            have hcount : mask2.count true ≤ mask2.length :=
              List.count_le_length _ _
            rw [hlen, hgm] at hcount
            exact_mod_cast hcount

/-- Scene detector oracle for concrete scenarios: no keypoints, 50
scene descriptors. -/
def cDet : Image → List KeyPoint × Option NpMat :=
  fun _ => ([], some ⟨50, 32, []⟩)

/-- One knnMatch answer pair: best distance 0, second best 10. -/
def cPair : List DMatch := [⟨0, 0, 0⟩, ⟨0, 1, 10⟩]

/-- Matcher oracle returning six unambiguous pairs. -/
def cKnn : NpMat → NpMat → List (List DMatch) :=
  fun _ _ => [cPair, cPair, cPair, cPair, cPair, cPair]

/-- All-inlier estimator mask for six candidates. -/
def cMask : List Bool := [true, true, true, true, true, true]

/-- Homography translating by +200 in x: it sends the whole template
quadrilateral beyond the right edge of the 100-wide scene. -/
def cH : Mat3 := ⟨1, 0, 200, 0, 1, 0, 0, 0, 1⟩

/-- Estimator oracle returning the translation homography. -/
def cFH : List (ℚ × ℚ) → List (ℚ × ℚ) → Option (Mat3 × List Bool) :=
  fun _ _ => some (cH, cMask)

/-- A 10x10 template with six keypoints and descriptors. -/
def cT : FeatureTemplate :=
  ⟨"t", ⟨0, 0, 10, 10⟩, 4/5, some [kp0, kp0, kp0, kp0, kp0, kp0],
   some ⟨6, 32, []⟩⟩

/-- A 100x100 scene image. -/
def cImg : Image := ⟨100, 100⟩

/-- The six ratio-test survivors of the concrete scenarios. -/
def cGood : List DMatch :=
  [⟨0, 0, 0⟩, ⟨0, 0, 0⟩, ⟨0, 0, 0⟩, ⟨0, 0, 0⟩, ⟨0, 0, 0⟩, ⟨0, 0, 0⟩]

/-- Counterexample to C2 as stated: with all gates passing and the
 homography translating the template outside the scene, the returned
 bounding box has negative width and an origin beyond the scene
 width. -/
theorem match_template_bbox_cex :
    match_template cDet cKnn cFH cT cImg =
      some ⟨"t", ⟨200, 0, -100, 10⟩, 1, cGood, [], cMask⟩ ∧
    (⟨200, 0, -100, 10⟩ : RectZ).w < 0 ∧
    cImg.width < (⟨200, 0, -100, 10⟩ : RectZ).x := by
  refine ⟨?_, by norm_num, by norm_num [cImg]⟩
  norm_num [match_template, cDet, cKnn, cFH, cT, cImg, cH, cPair, cMask,
    cGood, ratio_test_survivors, bounding_box, proj_x_min, proj_x_max,
    proj_y_min, proj_y_max, perspective_point, truncZ, kp0,
    List.count_cons, List.filterMap_cons]

/-- Identity homography used in the success witnesses. -/
def wH : Mat3 := ⟨1, 0, 0, 0, 1, 0, 0, 0, 1⟩

/-- Estimator oracle returning the identity homography. -/
def wFH : List (ℚ × ℚ) → List (ℚ × ℚ) → Option (Mat3 × List Bool) :=
  fun _ _ => some (wH, cMask)

/-- The match result of the identity-homography scenario. -/
def wRes : MatchResult := ⟨"t", ⟨0, 0, 10, 10⟩, 1, cGood, [], cMask⟩

/-- The identity scenario evaluates to wRes (shared by the C1 and C2
witnesses). -/
theorem match_template_ident_eval :
    match_template cDet cKnn wFH cT cImg = some wRes := by
  norm_num [match_template, cDet, cKnn, wFH, cT, cImg, wH, cPair, cMask,
    cGood, wRes, ratio_test_survivors, bounding_box, proj_x_min,
    proj_x_max, proj_y_min, proj_y_max, perspective_point, truncZ, kp0,
    List.count_cons, List.filterMap_cons]

/-- Witness for C1: the identity scenario passes every gate and the
 reported confidence is the inlier fraction. -/
theorem match_template_gate_spec_witness :
    wRes.confidence = match_confidence cDet cKnn wFH cT cImg :=
  (match_template_gate_spec cDet cKnn wFH cT cImg).2 wRes
    match_template_ident_eval

/-- Witness for C2 at the identity scenario. -/
theorem match_template_bbox_spec_witness :
    wRes.position = bounding_box cT cImg wH ∧
    0 ≤ wRes.position.x ∧ 0 ≤ wRes.position.y ∧
    wRes.position.x + wRes.position.w ≤ cImg.width ∧
    wRes.position.y + wRes.position.h ≤ cImg.height ∧
    (max 0 (proj_x_min cT wH) ≤ min cImg.width (proj_x_max cT wH) →
      0 ≤ wRes.position.w) ∧
    (max 0 (proj_y_min cT wH) ≤ min cImg.height (proj_y_max cT wH) →
      0 ≤ wRes.position.h) ∧
    0 ≤ wRes.confidence ∧
    (cMask.length = (good_matches cDet cKnn cT cImg).length →
      wRes.confidence ≤ 1) :=
  match_template_bbox_spec cDet cKnn wFH cT cImg wRes wH cMask
    match_template_ident_eval rfl

/-- The serialized per-template record built by FeatureTemplate.to_dict.
The descriptors field holds the base64 text of the zlib-compressed
bytes, abstracted here as an encoded byte list; keypoints_info holds the
compact [x, y, size, angle] records. -/
structure EntryData where
  name : String
  position : RectZ
  confidence_threshold : Option ℚ
  descriptors : Option (List ℕ)
  descriptors_shape : Option (ℕ × ℕ)
  keypoints_info : Option (List (ℚ × ℚ × ℚ × ℚ))
deriving DecidableEq

/-- FeatureTemplate.to_dict, parameterized by the
base64-of-zlib-compress encoder enc. -/
def to_dict (enc : List ℕ → List ℕ) (t : FeatureTemplate) : EntryData :=
  { name := t.name
    position := t.position
    confidence_threshold := some t.confidence_threshold
    descriptors := t.descriptors.map fun m => enc m.data
    descriptors_shape := t.descriptors.map fun m => (m.rows, m.cols)
    keypoints_info :=
      match t.keypoints with
      | some l =>
        if l = [] then none
        else some (l.map fun kp => (kp.ptx, kp.pty, kp.size, kp.angle))
      | none => none }

/-- FeatureTemplate._compact_list_to_keypoints: rebuild keypoints with
the fixed defaults response=0.01, octave=0, class id=-1. -/
def compact_list_to_keypoints :
    Option (List (ℚ × ℚ × ℚ × ℚ)) → Option (List KeyPoint)
  | some l =>
    if l = [] then none
    else some (l.map fun i => ⟨i.1, i.2.1, i.2.2.1, i.2.2.2, 1/100, 0, -1⟩)
  | none => none

/-- The final cls(...) call of from_dict, given the decoded descriptor
matrix. -/
def template_of_data (data : EntryData) (descs : Option NpMat) :
    FeatureTemplate :=
  ⟨data.name, data.position, data.confidence_threshold.getD 0.8,
   compact_list_to_keypoints data.keypoints_info, descs⟩

/-- FeatureTemplate.from_dict, parameterized by the
zlib-decompress-of-base64 decoder dec; a decode or reshape failure is
the caught exception path returning None. A missing shape leaves the
decoded bytes as a flat (1-d) array. -/
def from_dict (dec : List ℕ → Option (List ℕ)) (data : EntryData) :
    Option FeatureTemplate :=
  match data.descriptors with
  | some blob =>
    if blob ≠ [] then
      match dec blob with
      | none => none
      | some bytes =>
        match data.descriptors_shape with
        | some rc =>
          if rc.1 * rc.2 = bytes.length then
            some (template_of_data data (some ⟨rc.1, rc.2, bytes⟩))
          else none
        | none => some (template_of_data data (some ⟨bytes.length, 1, bytes⟩))
    else some (template_of_data data none)
  | none => some (template_of_data data none)

/-- C4: from_dict of to_dict reproduces name, position, threshold and
 the descriptor matrix byte-for-byte with its shape, and every
 keypoint's x, y, size and angle, while response, octave and class id
 are rebuilt as the fixed defaults 0.01, 0, -1; the codec pair is any
 encoder/decoder satisfying the zlib+base64 roundtrip. -/
theorem template_dict_roundtrip
    (enc : List ℕ → List ℕ) (dec : List ℕ → Option (List ℕ))
    (t : FeatureTemplate) (m : NpMat) (kps : List KeyPoint)
    (hdesc : t.descriptors = some m)
    (hshape : m.rows * m.cols = m.data.length)
    (hkp : t.keypoints = some kps) (hkpne : kps ≠ [])
    (hcodec : dec (enc m.data) = some m.data)
    (hencne : enc m.data ≠ []) :
    from_dict dec (to_dict enc t) =
      some ⟨t.name, t.position, t.confidence_threshold,
        some (kps.map fun kp =>
          ⟨kp.ptx, kp.pty, kp.size, kp.angle, 1/100, 0, -1⟩),
        some m⟩ := by
  obtain ⟨mr, mc, md⟩ := m
  simp [to_dict, from_dict, template_of_data, compact_list_to_keypoints,
    hdesc, hkp, hcodec, hkpne, hencne, hshape, Function.comp]

/-- A concrete template for the C4 witness, with nontrivial response,
octave and class id that the roundtrip resets to the defaults. -/
def tW : FeatureTemplate :=
  ⟨"w", ⟨1, 2, 3, 4⟩, 9/10, some [⟨5, 6, 2, 30, 1/2, 3, 7⟩],
   some ⟨1, 2, [7, 9]⟩⟩

/-- Witness for C4 with the identity codec. -/
theorem template_dict_roundtrip_witness :
    from_dict (fun b => some b) (to_dict (fun b => b) tW) =
      some ⟨"w", ⟨1, 2, 3, 4⟩, 9/10, some [⟨5, 6, 2, 30, 1/100, 0, -1⟩],
        some ⟨1, 2, [7, 9]⟩⟩ :=
  template_dict_roundtrip (fun b => b) (fun b => some b) tW ⟨1, 2, [7, 9]⟩
    [⟨5, 6, 2, 30, 1/2, 3, 7⟩] rfl rfl rfl (by simp) rfl (by simp)

/-- Python str.strip(): drop leading and trailing whitespace
(structural model of the library call). -/
def pystrip (s : String) : String :=
  ⟨((s.data.dropWhile Char.isWhitespace).reverse.dropWhile
      Char.isWhitespace).reverse⟩

/-- Python dict lookup over an insertion-ordered association list. -/
def dict_get {α : Type} (k : String) : List (String × α) → Option α
  | [] => none
  | p :: rest => if p.1 = k then some p.2 else dict_get k rest

/-- Python dict assignment: update in place if the key exists,
otherwise append. -/
def dict_set {α : Type} (k : String) (v : α) :
    List (String × α) → List (String × α)
  | [] => [(k, v)]
  | p :: rest => if p.1 = k then (k, v) :: rest else p :: dict_set k v rest

/-- Iterate the template mapping insisting every value is a real
template; the first None value is the AttributeError raised when
iterating a mapping poisoned by a failed load. -/
def all_some {α : Type} :
    List (String × Option α) → Option (List (String × α))
  | [] => some []
  | (_, none) :: _ => none
  | (k, some v) :: rest => (all_some rest).map fun r => (k, v) :: r

/-- The mutable state of WindowFeatureCaptureWidget that the modelled
operations read and write. templates_file holds the parsed contents of
feature_templates.json (none when the file does not exist). -/
structure WidgetState where
  current_hwnd : Option ℕ
  feature_templates : List (String × Option FeatureTemplate)
  templates_file : Option (List (String × EntryData))
  is_matching : Bool
  current_window_image : Option Image
  current_match_results : Option (List MatchResult)
  selected_region : Option Region
  template_name_edit : String
  confidence_spin : ℚ

/-- _save_templates: build the serialized mapping, then rewrite the
file; a None value raises while building, so the file stays
unchanged. -/
def save_templates (enc : List ℕ → List ℕ) (st : WidgetState) :
    WidgetState :=
  match all_some st.feature_templates with
  | none => st
  | some tpls =>
    { st with
      templates_file := some (tpls.map fun p => (p.1, to_dict enc p.2)) }

/-- numpy slicing of an in-bounds region: the crop has exactly the
region's extent (content abstracted). -/
def crop_image (_img : Image) (r : RectZ) : Image := ⟨r.w, r.h⟩

/-- The source rectangle and cropped image a capture works on: the
selected region's image rectangle, or the whole frame. -/
def capture_source (st : WidgetState) (img : Image) : RectZ × Image :=
  match st.selected_region with
  | some region => (region.image, crop_image img region.image)
  | none => (⟨0, 0, img.width, img.height⟩, img)

/-- The typed outcomes of _capture_feature_template. -/
inductive CaptureOutcome where
  | warnNoWindowOrName
  | duplicateName
  | noFeaturesFound
  | success
deriving DecidableEq

/-- _capture_feature_template, with the template-side ORB extractor as
the oracle det. -/
def capture_feature_template (enc : List ℕ → List ℕ)
    (det : Image → List KeyPoint × Option NpMat) (st : WidgetState) :
    CaptureOutcome × WidgetState :=
  match st.current_window_image with
  | none => (.warnNoWindowOrName, st)
  | some img =>
    if pystrip st.template_name_edit = "" then (.warnNoWindowOrName, st)
    else
      if (dict_get (pystrip st.template_name_edit)
          st.feature_templates).isSome then (.duplicateName, st)
      else
        match (det (capture_source st img).2).2 with
        | none => (.noFeaturesFound, st)
        | some d =>
          if d.rows = 0 then (.noFeaturesFound, st)
          else
            (.success, save_templates enc
              { st with
                feature_templates :=
                  dict_set (pystrip st.template_name_edit)
                    (some ⟨pystrip st.template_name_edit,
                      (capture_source st img).1, st.confidence_spin,
                      some (det (capture_source st img).2).1, some d⟩)
                    st.feature_templates,
                selected_region := none })

/-- Setting an absent key appends it. -/
theorem dict_set_of_get_none {α : Type} (k : String) (v : α)
    (l : List (String × α)) (h : dict_get k l = none) :
    dict_set k v l = l ++ [(k, v)] := by
  induction l with
  | nil => rfl
  | cons p rest ih =>
    rw [dict_get] at h
    by_cases hp : p.1 = k
    · rw [if_pos hp] at h
      simp at h
    · rw [if_neg hp] at h
      rw [dict_set, if_neg hp, ih h]
      rfl

/-- all_some distributes over appending a real value. -/
theorem all_some_append {α : Type} (l : List (String × Option α))
    (tpls : List (String × α)) (h : all_some l = some tpls)
    (k : String) (v : α) :
    all_some (l ++ [(k, some v)]) = some (tpls ++ [(k, v)]) := by
  induction l generalizing tpls with
  | nil =>
    rw [all_some] at h
    rw [Option.some.injEq] at h
    subst h
    rfl
  | cons p rest ih =>
    obtain ⟨k1, v1⟩ := p
    cases v1 with
    | none => rw [all_some] at h; exact absurd h (by simp)
    | some w =>
      rw [all_some] at h
      cases hrest : all_some rest with
      | none => rw [hrest] at h; simp at h
      | some r =>
        rw [hrest] at h
        simp only [Option.map_some', Option.some.injEq] at h
        subst h
        rw [List.cons_append, all_some, ih r hrest]
        rfl

/-- C3: with a window connected and a nonempty stripped name, a
 duplicate name fails with DuplicateName leaving state and file
 untouched; a zero-descriptor extraction fails with NoFeaturesFound
 storing nothing; and only a successful capture appends the new
 template and immediately rewrites the persisted file with the full
 mapping. -/
theorem capture_template_spec (enc : List ℕ → List ℕ)
    (det : Image → List KeyPoint × Option NpMat)
    (st : WidgetState) (img : Image)
    (tpls : List (String × FeatureTemplate))
    (himg : st.current_window_image = some img)
    (hname : pystrip st.template_name_edit ≠ "")
    (hwf : all_some st.feature_templates = some tpls) :
    ((dict_get (pystrip st.template_name_edit)
        st.feature_templates).isSome →
      capture_feature_template enc det st = (.duplicateName, st)) ∧
    (dict_get (pystrip st.template_name_edit) st.feature_templates =
        none →
      descRows (det (capture_source st img).2).2 = 0 →
      capture_feature_template enc det st = (.noFeaturesFound, st)) ∧
    (∀ d, dict_get (pystrip st.template_name_edit) st.feature_templates =
        none →
      (det (capture_source st img).2).2 = some d → d.rows ≠ 0 →
      capture_feature_template enc det st =
        (.success,
         { st with
           feature_templates := st.feature_templates ++
             [(pystrip st.template_name_edit,
               some ⟨pystrip st.template_name_edit,
                 (capture_source st img).1, st.confidence_spin,
                 some (det (capture_source st img).2).1, some d⟩)],
           selected_region := none,
           templates_file := some ((tpls ++
             [(pystrip st.template_name_edit,
               (⟨pystrip st.template_name_edit, (capture_source st img).1,
                 st.confidence_spin,
                 some (det (capture_source st img).2).1,
                 some d⟩ : FeatureTemplate))]).map
               fun p => (p.1, to_dict enc p.2)) })) := by
  refine ⟨?_, ?_, ?_⟩
  · intro hdup
    unfold capture_feature_template
    rw [himg]
    dsimp only
    rw [if_neg hname, if_pos hdup]
  · intro hnone h0
    unfold capture_feature_template
    rw [himg]
    dsimp only
    rw [if_neg hname,
      if_neg (by rw [hnone]; simp)]
    cases hdet : (det (capture_source st img).2).2 with
    | none => rfl
    | some d =>
      rw [hdet] at h0
      have h0r : d.rows = 0 := h0
      dsimp only
      rw [if_pos h0r]
  · intro d hnone hdet hrows
    have hnotdup : ¬ (dict_get (pystrip st.template_name_edit)
        st.feature_templates).isSome = true := by
      rw [hnone]; simp
    unfold capture_feature_template
    rw [himg]
    dsimp only
    rw [if_neg hname, if_neg hnotdup, hdet]
    dsimp only
    rw [if_neg hrows]
    unfold save_templates
    dsimp only
    rw [dict_set_of_get_none _ _ _ hnone]
    rw [all_some_append _ tpls hwf]

/-- A ready-to-capture widget state for the C3 witness: one stored
template named old, window connected, stripped name new. -/
def stW : WidgetState :=
  ⟨some 1, [("old", some cT)], none, false, some ⟨100, 100⟩, none, none,
   "new", 4/5⟩

/-- Witness for C3: the success branch on stW appends the new template
 and rewrites the file. -/
theorem capture_template_spec_witness :
    capture_feature_template (fun b => b) cDet stW =
      (.success,
       { stW with
         feature_templates := stW.feature_templates ++
           [(pystrip stW.template_name_edit,
             some ⟨pystrip stW.template_name_edit,
               (capture_source stW ⟨100, 100⟩).1, stW.confidence_spin,
               some (cDet (capture_source stW ⟨100, 100⟩).2).1,
               some ⟨50, 32, []⟩⟩)],
         selected_region := none,
         templates_file := some ((([("old", cT)] ++
           [(pystrip stW.template_name_edit,
             (⟨pystrip stW.template_name_edit,
               (capture_source stW ⟨100, 100⟩).1, stW.confidence_spin,
               some (cDet (capture_source stW ⟨100, 100⟩).2).1,
               some ⟨50, 32, []⟩⟩ : FeatureTemplate))]) :
             List (String × FeatureTemplate)).map
             fun p => (p.1, to_dict (fun b => b) p.2)) }) :=
  (capture_template_spec (fun b => b) cDet stW ⟨100, 100⟩ [("old", cT)]
    rfl (by decide) (by simp [all_some, stW])).2.2 ⟨50, 32, []⟩
    (by simp [dict_get, stW, pystrip]) rfl (by decide)

/-- _load_templates: for each entry of the parsed file, assign
FeatureTemplate.from_dict(item) into the mapping as-is (including a
None result). -/
def load_templates (dec : List ℕ → Option (List ℕ)) (st : WidgetState) :
    WidgetState :=
  match st.templates_file with
  | none => st
  | some entries =>
    { st with
      feature_templates :=
        entries.foldl (fun acc p => dict_set p.1 (from_dict dec p.2) acc)
          st.feature_templates }

/-- Decoder for the C5 scenario: the blob [99] is undecodable (a
corrupt base64/zlib payload), everything else decodes to itself. -/
def dec0 : List ℕ → Option (List ℕ) :=
  fun b => if b = [99] then none else some b

/-- A corrupt stored entry: its descriptor blob fails to decode. -/
def badEntry : EntryData :=
  ⟨"bad", ⟨0, 0, 1, 1⟩, some (4/5), some [99], some (1, 1), none⟩

/-- A well-formed stored entry. -/
def goodEntry : EntryData :=
  ⟨"good", ⟨0, 0, 1, 1⟩, some (4/5), some [7], some (1, 1),
   some [(1, 2, 3, 4)]⟩

/-- The widget state at startup with a two-entry template file. -/
def stLoad : WidgetState :=
  ⟨none, [], some [("bad", badEntry), ("good", goodEntry)], false, none,
   none, none, "", 4/5⟩

/-- C5 demonstration: loading a file with one corrupt and one
 well-formed entry binds the corrupt name to None inside the template
 mapping (the entry is present, not skipped), while the well-formed
 entry loads normally. -/
theorem load_templates_corrupt_entry :
    (load_templates dec0 stLoad).feature_templates =
      [("bad", none),
       ("good", some ⟨"good", ⟨0, 0, 1, 1⟩, 4/5,
         some [⟨1, 2, 3, 4, 1/100, 0, -1⟩], some ⟨1, 1, [7]⟩⟩)] ∧
    dict_get "bad" (load_templates dec0 stLoad).feature_templates =
      some none := by
  constructor <;>
    norm_num [load_templates, stLoad, dict_get, dict_set, from_dict,
      dec0, badEntry, goodEntry, template_of_data,
      compact_list_to_keypoints, List.foldl] <;>
    decide

/-- Python truthiness of the window handle. -/
def hwnd_truthy : Option ℕ → Bool
  | none => false
  | some h => h != 0

/-- _perform_match: one matching tick. A missing frame skips the tick;
otherwise the frame is stored, every template matched, and the batch
of non-None results recorded. Iterating over a mapping that holds a
None template raises after the frame was stored, leaving the previous
results in place (the outer try logs the failure). -/
def perform_match (shot : ℕ → Option Image)
    (det : Image → List KeyPoint × Option NpMat)
    (knn : NpMat → NpMat → List (List DMatch))
    (fH : List (ℚ × ℚ) → List (ℚ × ℚ) → Option (Mat3 × List Bool))
    (st : WidgetState) : WidgetState :=
  if hwnd_truthy st.current_hwnd = false ∨ st.feature_templates = [] then
    st
  else
    match st.current_hwnd with
    | none => st
    | some hwnd =>
      match shot hwnd with
      | none => st
      | some img =>
        match all_some st.feature_templates with
        | none => { st with current_window_image := some img }
        | some tpls =>
          { st with
            current_window_image := some img,
            current_match_results :=
              some (tpls.filterMap fun p =>
                match_template det knn fH p.2 img) }

/-- C9: a single _perform_match tick never changes is_matching, the
 template mapping or the persisted file; and when the capture
 collaborator returns no frame the whole state is left untouched. -/
theorem perform_match_spec (shot : ℕ → Option Image)
    (det : Image → List KeyPoint × Option NpMat)
    (knn : NpMat → NpMat → List (List DMatch))
    (fH : List (ℚ × ℚ) → List (ℚ × ℚ) → Option (Mat3 × List Bool))
    (st : WidgetState) :
    ((perform_match shot det knn fH st).is_matching = st.is_matching ∧
     (perform_match shot det knn fH st).feature_templates =
       st.feature_templates ∧
     (perform_match shot det knn fH st).templates_file =
       st.templates_file) ∧
    (∀ h, st.current_hwnd = some h → shot h = none →
      perform_match shot det knn fH st = st) := by
  constructor
  · unfold perform_match
    split
    · exact ⟨rfl, rfl, rfl⟩
    · cases hh : st.current_hwnd with
      | none => exact ⟨rfl, rfl, rfl⟩
      | some hw =>
        dsimp only
        cases hs : shot hw with
        | none => exact ⟨rfl, rfl, rfl⟩
        | some img =>
          dsimp only
          cases ha : all_some st.feature_templates with
          | none => exact ⟨rfl, rfl, rfl⟩
          | some tpls => exact ⟨rfl, rfl, rfl⟩
  · intro h hh hs
    unfold perform_match
    split
    · rfl
    · rw [hh]
      dsimp only
      rw [hs]

/-- A running widget state for the C9 witness. -/
def stP : WidgetState :=
  ⟨some 1, [("t", some cT)], none, true, some ⟨100, 100⟩, some [], none,
   "", 4/5⟩

/-- Witness for C9: a tick whose capture returns no frame leaves the
 state untouched. -/
theorem perform_match_spec_witness :
    perform_match (fun _ => none) cDet cKnn cFH stP = stP :=
  (perform_match_spec (fun _ => none) cDet cKnn cFH stP).2 1 rfl rfl

end VSTain
